import Mathlib

/-!
Shallow embedding of natelandau/datefind (src/datefind/datefind.py).

The module scans text with a composite regex (built by `DatePatternFactory`,
whose source is not part of this tree) and resolves every raw match either as
a relative-date expression or from its captured year/month/day components.

Modelling conventions:
* Python `datetime` values are modelled at calendar-day granularity
  (`PyDateTime`: year/month/day); time-of-day and timezone are carried
  unchanged by every operation the claims mention, so they are omitted.
* `datetime.now(tz)` is modelled by an explicit clock: a function
  `Nat → PyDateTime` giving the reading of each successive call, together
  with a counter for how many samples were taken so far.  This makes the
  sampling behaviour of `find_dates` (one sample per match inside
  `_handle_relative_dates`, plus one lazily-evaluated sample per missing
  month and per missing year component) explicit.
* Python `int(...)` on the digit strings captured by the regex is modelled
  by `digitsToNat` (total; the regex only captures ASCII digit runs).
* Exceptions that `find_dates` does not catch (`ValueError` from the
  `datetime` constructor, `KeyError` from the `DayToNumber` lookup) are
  modelled with `Except String`; an uncaught exception aborts the generator.
* The `regex` library's `finditer` and the composite pattern are not in the
  source tree; raw matches are therefore inputs, and the guarantees the
  library provides (span/slice agreement, ordered non-overlapping matches)
  are stated as explicit predicates.
-/

namespace Datefind

/-- Gregorian leap-year rule, as used by Python's `datetime` module. -/
def isLeapYear (y : Int) : Bool :=
  (y % 4 == 0 && y % 100 != 0) || (y % 400 == 0)

/-- Number of days in month `m` of year `y` (Python `calendar`/`datetime` rule). -/
def daysInMonth (y : Int) (m : Nat) : Nat :=
  if m = 2 then (if isLeapYear y then 29 else 28)
  else if m = 4 ∨ m = 6 ∨ m = 9 ∨ m = 11 then 30
  else 31

/-- A Python `datetime` at calendar-day granularity (time-of-day and tzinfo
are carried unchanged by all operations relevant to the claims). -/
structure PyDateTime where
  year : Int
  month : Nat
  day : Nat
deriving DecidableEq, Repr

/-- Validity check of Python's `datetime(year, month, day)` constructor:
month 1–12, day within the month, year within `MINYEAR..MAXYEAR`. -/
def validYMD (y : Int) (m d : Nat) : Bool :=
  1 ≤ y && y ≤ 9999 && 1 ≤ m && m ≤ 12 && 1 ≤ d && d ≤ daysInMonth y m

/-- Python's `datetime(year=..., month=..., day=..., tzinfo=...)` constructor:
raises `ValueError` on an invalid combination. -/
def mkDatetime (y : Int) (m d : Nat) : Except String PyDateTime :=
  if validYMD y m d then .ok ⟨y, m, d⟩ else .error "ValueError"

/-- Successor day in the proleptic Gregorian calendar. -/
def nextDay (t : PyDateTime) : PyDateTime :=
  if t.day < daysInMonth t.year t.month then { t with day := t.day + 1 }
  else if t.month < 12 then { t with month := t.month + 1, day := 1 }
  else ⟨t.year + 1, 1, 1⟩

/-- Predecessor day in the proleptic Gregorian calendar. -/
def prevDay (t : PyDateTime) : PyDateTime :=
  if 1 < t.day then { t with day := t.day - 1 }
  else if 1 < t.month then { t with month := t.month - 1, day := daysInMonth t.year (t.month - 1) }
  else ⟨t.year - 1, 12, 31⟩

/-- Python `dt ± timedelta(days=n)`: calendar-day arithmetic (the year-range
overflow Python raises outside years 1–9999 is not modelled; every claim
concerns in-range instants). -/
def addDays (t : PyDateTime) (n : Int) : PyDateTime :=
  if 0 ≤ n then Nat.iterate nextDay n.toNat t
  else Nat.iterate prevDay (-n).toNat t

/-- The named capture groups of one raw match (`match.groupdict()`): a slot is
`none` when the group did not participate in the match. -/
structure GroupDict where
  year : Option String := none
  month : Option String := none
  day : Option String := none
  month_as_text : Option String := none
  day_as_text : Option String := none
  today : Option String := none
  yesterday : Option String := none
  tomorrow : Option String := none
  last_week : Option String := none
  next_week : Option String := none
  last_month : Option String := none
  next_month : Option String := none
  last_year : Option String := none
  next_year : Option String := none
deriving DecidableEq, Repr

/-- Python truthiness of `groups.get(key)`: present and a non-empty string. -/
def truthy (o : Option String) : Bool :=
  match o with
  | some s => !s.isEmpty
  | none => false

/-- Python `int(...)` on the ASCII digit runs the pattern captures. -/
def digitsToNat (s : String) : Nat :=
  s.data.foldl (fun acc c => acc * 10 + (c.toNat - 48)) 0

/-- Modelled from the spec: the century constant `CENTURY` lives in the
module `datefind/constants.py`, which is not in the source tree; per the
spec the fixed century constant is the string prefix 20. -/
def CENTURY : String := "20"

/-- Modelled from the spec: the separator-character class `SEP_CHARS` of
`datefind/constants.py` (not in the source tree) — the separators the spec
lists for date components and ordinal words. -/
def SEP_CHARS : List Char := [' ', '-', '/', ':', ',', '.']

/-- Modelled from the spec: the `DayToNumber` table of
`datefind/constants.py` (not in the source tree) — the fixed ordinal-word →
integer table covering 1st–31st, keys uppercase and separator-free. -/
def DayToNumber : List (String × Nat) :=
  [("FIRST", 1), ("SECOND", 2), ("THIRD", 3), ("FOURTH", 4), ("FIFTH", 5),
   ("SIXTH", 6), ("SEVENTH", 7), ("EIGHTH", 8), ("NINTH", 9), ("TENTH", 10),
   ("ELEVENTH", 11), ("TWELFTH", 12), ("THIRTEENTH", 13), ("FOURTEENTH", 14),
   ("FIFTEENTH", 15), ("SIXTEENTH", 16), ("SEVENTEENTH", 17), ("EIGHTEENTH", 18),
   ("NINETEENTH", 19), ("TWENTIETH", 20), ("TWENTYFIRST", 21), ("TWENTYSECOND", 22),
   ("TWENTYTHIRD", 23), ("TWENTYFOURTH", 24), ("TWENTYFIFTH", 25), ("TWENTYSIXTH", 26),
   ("TWENTYSEVENTH", 27), ("TWENTYEIGHTH", 28), ("TWENTYNINTH", 29), ("THIRTIETH", 30),
   ("THIRTYFIRST", 31)]

/-- Python `re.sub(rf"[{SEP_CHARS}]", "", s)`: delete every separator char. -/
def stripSeps (s : String) : String :=
  String.mk (s.data.filter (fun c => !SEP_CHARS.contains c))

/-- Modelled from the spec: the month-name patterns `JANUARY` … `DECEMBER` of
`datefind/constants.py` (not in the source tree).  Each pattern matches a
candidate string case-insensitively via `re.search`; this is modelled as
case-insensitive containment of the month's three-letter abbreviation, in
calendar order as `_month_to_number` iterates them. -/
def monthPatterns : List (String × Nat) :=
  [("jan", 1), ("feb", 2), ("mar", 3), ("apr", 4), ("may", 5), ("jun", 6),
   ("jul", 7), ("aug", 8), ("sep", 9), ("oct", 10), ("nov", 11), ("dec", 12)]

/-- ASCII lower-casing of one character (Python `str.lower` on the ASCII
vocabulary the patterns use). -/
def charToLower (c : Char) : Char :=
  if 65 ≤ c.toNat ∧ c.toNat ≤ 90 then Char.ofNat (c.toNat + 32) else c

/-- ASCII upper-casing of one character (Python `str.upper` on the ASCII
vocabulary the ordinal words use). -/
def charToUpper (c : Char) : Char :=
  if 97 ≤ c.toNat ∧ c.toNat ≤ 122 then Char.ofNat (c.toNat - 32) else c

/-- Python `s.lower()` at the character level. -/
def strToLower (s : String) : String :=
  String.mk (s.data.map charToLower)

/-- Python `s.upper()` at the character level. -/
def strToUpper (s : String) : String :=
  String.mk (s.data.map charToUpper)

/-- Test whether `pat` is a prefix of `hay` (character lists). -/
def matchHere : List Char → List Char → Bool
  | _, [] => true
  | [], _ :: _ => false
  | c :: cs, p :: ps => c == p && matchHere cs ps

/-- Test whether `pat` occurs contiguously anywhere in `hay`. -/
def searchIn (pat : List Char) : List Char → Bool
  | [] => pat.isEmpty
  | c :: cs => matchHere (c :: cs) pat || searchIn pat cs

/-- Python `re.search(pattern, s, re.IGNORECASE)` for a month-name pattern:
the abbreviation occurs somewhere in the lowercased candidate. -/
def reSearchMonth (pat : String) (s : String) : Bool :=
  searchIn pat.data (strToLower s).data

/-- Numeric fallback of `_day_to_number`: `int(day)` when the `day` group is
truthy, else `None`. -/
def dayNumeric (g : GroupDict) : Option Nat :=
  match g.day with
  | some s => if !s.isEmpty then some (digitsToNat s) else none
  | none => none

/-- Embeds `DateFind._day_to_number`: a truthy `day_as_text` is stripped of
separators, uppercased and looked up in `DayToNumber` (a missing key raises
`KeyError`); otherwise a truthy `day` group is parsed numerically; else `None`. -/
def dayToNumber (g : GroupDict) : Except String (Option Nat) :=
  match g.day_as_text with
  | some s =>
    if !s.isEmpty then
      match DayToNumber.find? (fun p => p.1 == strToUpper (stripSeps s)) with
      | some p => .ok (some p.2)
      | none => .error "KeyError"
    else .ok (dayNumeric g)
  | none => .ok (dayNumeric g)

/-- Numeric fallback of `_month_to_number`: `int(month)` when the `month`
group is truthy, else `None`. -/
def monthNumeric (g : GroupDict) : Option Nat :=
  match g.month with
  | some s => if !s.isEmpty then some (digitsToNat s) else none
  | none => none

/-- Embeds `DateFind._month_to_number`: a truthy `month_as_text` is tested
against the twelve month patterns in calendar order and the first match wins;
if no pattern matches (or the group is absent) the numeric `month` group is
parsed; else `None`. -/
def monthToNumber (g : GroupDict) : Option Nat :=
  match g.month_as_text with
  | some s =>
    if !s.isEmpty then
      match monthPatterns.find? (fun p => reSearchMonth p.1 s) with
      | some p => some p.2
      | none => monthNumeric g
    else monthNumeric g
  | none => monthNumeric g

/-- Embeds `DateFind._year_to_number`: a truthy `year` group of length 2 is
prefixed with `CENTURY` before parsing; any other truthy `year` group is
parsed unchanged; else `None`. -/
def yearToNumber (g : GroupDict) : Option Int :=
  match g.year with
  | some s =>
    if !s.isEmpty then
      if s.length == 2 then some ((digitsToNat (CENTURY ++ s) : Nat) : Int)
      else some ((digitsToNat s : Nat) : Int)
    else none
  | none => none

/-- Python `now.replace(tzinfo=tz, month=m)`: validates the replaced date and
raises `ValueError` (here `none`, as `_handle_relative_dates` catches it) on
an invalid result, e.g. month 0/13 or a day-of-month exceeding the target
month's length. -/
def tryReplaceMonth (now : PyDateTime) (m : Int) : Option PyDateTime :=
  if validYMD now.year m.toNat now.day && 0 ≤ m then some { now with month := m.toNat }
  else none

/-- Python `now.replace(tzinfo=tz, year=y)`: validates the replaced date and
raises `ValueError` (here `none`) on an invalid result, e.g. Feb 29 mapped to
a non-leap year. -/
def tryReplaceYear (now : PyDateTime) (y : Int) : Option PyDateTime :=
  if validYMD y now.month now.day then some { now with year := y }
  else none

/-- Embeds `DateFind._handle_relative_dates` applied to the single `now`
sample it takes: the simple-offset keywords are checked first in source
order, then the month/year adjustments in the `adjustments` dict's insertion
order, where a `ValueError` from `replace` is caught and turned into `None`. -/
def handleRelativeDates (g : GroupDict) (now : PyDateTime) : Option PyDateTime :=
  if truthy g.today then some now
  else if truthy g.yesterday then some (addDays now (-1))
  else if truthy g.tomorrow then some (addDays now 1)
  else if truthy g.last_week then some (addDays now (-7))
  else if truthy g.next_week then some (addDays now 7)
  else if truthy g.last_month then tryReplaceMonth now ((now.month : Int) - 1)
  else if truthy g.next_month then tryReplaceMonth now ((now.month : Int) + 1)
  else if truthy g.last_year then tryReplaceYear now (now.year - 1)
  else if truthy g.next_year then tryReplaceYear now (now.year + 1)
  else none

/-- One raw match of the composite pattern, as `find_dates` consumes it:
`matched` is `match.group()` and `start`/`stop` are `match.span()`. -/
structure RawMatch where
  groups : GroupDict
  matched : String
  start : Nat
  stop : Nat
deriving DecidableEq, Repr

/-- The `Date` dataclass of `datefind.py` (`match` renamed `matched`, a Lean
keyword): parsed datetime, matched substring, and span of the match. -/
structure Date where
  date : PyDateTime
  matched : String
  span : Nat × Nat
deriving DecidableEq, Repr

/-- The `has_date_component` check of `find_dates`: any of the five component
groups is truthy. -/
def hasDateComponent (g : GroupDict) : Bool :=
  truthy g.year || truthy g.month || truthy g.day ||
    truthy g.month_as_text || truthy g.day_as_text

/-- Python `x or d` for `int | None` values: `d` when `x` is `None` or `0`. -/
def pyOrNat (x : Option Nat) (d : Nat) : Nat :=
  match x with
  | some n => if n == 0 then d else n
  | none => d

/-- The body of `find_dates` for one raw match.  `clock` gives the reading of
each successive `datetime.now(self.tz)` call and `k` is the number of samples
taken so far; the result is the per-match outcome (`.error` = an uncaught
exception propagating out of the generator, `.ok none` = no yield, `.ok
(some d)` = yield `d`) paired with the updated sample counter.  Sampling
mirrors the source exactly: `_handle_relative_dates` always samples once
(line 117); the month default (line 93) and year default (line 94) each
sample lazily, only when their resolver returned a falsy value. -/
def processMatch (clock : Nat → PyDateTime) (k : Nat) (m : RawMatch) :
    Except String (Option Date) × Nat :=
  let g := m.groups
  let asDt := handleRelativeDates g (clock k)
  if asDt.isNone && hasDateComponent g then
    match dayToNumber g with
    | .error e => (.error e, k + 1)
    | .ok dOpt =>
      let day := pyOrNat dOpt 1
      let moPair : Nat × Nat :=
        match monthToNumber g with
        | some n => if n == 0 then ((clock (k + 1)).month, k + 2) else (n, k + 1)
        | none => ((clock (k + 1)).month, k + 2)
      let yrPair : Int × Nat :=
        match yearToNumber g with
        | some n => if n == 0 then ((clock moPair.2).year, moPair.2 + 1) else (n, moPair.2)
        | none => ((clock moPair.2).year, moPair.2 + 1)
      match mkDatetime yrPair.1 moPair.1 day with
      | .ok dt => (.ok (some ⟨dt, m.matched, (m.start, m.stop)⟩), yrPair.2)
      | .error e => (.error e, yrPair.2)
  else
    (.ok (asDt.map fun dt => ⟨dt, m.matched, (m.start, m.stop)⟩), k + 1)

/-- Embeds the `find_dates` loop over the raw matches `finditer` produced:
yields the `Date`s in match order and stops with the exception message when a
match raises an uncaught error (the list built so far was already yielded). -/
def findDatesAux (clock : Nat → PyDateTime) (k : Nat) :
    List RawMatch → List Date × Option String
  | [] => ([], none)
  | m :: rest =>
    match processMatch clock k m with
    | (.error e, _) => ([], some e)
    | (.ok none, k2) => findDatesAux clock k2 rest
    | (.ok (some d), k2) =>
      let r := findDatesAux clock k2 rest
      (d :: r.1, r.2)

/-- Embeds `DateFind.find_dates`: scan the raw matches in text order with a
fresh sample counter. -/
def findDates (clock : Nat → PyDateTime) (ms : List RawMatch) :
    List Date × Option String :=
  findDatesAux clock 0 ms

/-- Python string slicing `text[a:b]` at character granularity. -/
def strSlice (text : String) (a b : Nat) : String :=
  String.mk ((text.data.drop a).take (b - a))

/-- Modelled from the spec: the guarantee of the `regex` library's
`finditer` (not part of this source tree) that every produced match object's
`group()` is exactly the slice of the subject text at its `span()`. -/
def SliceAgrees (text : String) (ms : List RawMatch) : Prop :=
  ∀ m ∈ ms, strSlice text m.start m.stop = m.matched

/-- Modelled from the spec: the guarantee of the `regex` library's
`finditer` (not part of this source tree) that matches are produced in
strictly increasing start order and never overlap (already-consumed text is
not re-matched). -/
def OrderedMatches (ms : List RawMatch) : Prop :=
  List.Pairwise (fun a b => a.start < b.start ∧ a.stop ≤ b.start) ms

/-- A relative-keyword slot is present in the match (spec vocabulary for the
nine keyword groups `_handle_relative_dates` inspects). -/
def anyRelative (g : GroupDict) : Bool :=
  truthy g.today || truthy g.yesterday || truthy g.tomorrow ||
    truthy g.last_week || truthy g.next_week || truthy g.last_month ||
    truthy g.next_month || truthy g.last_year || truthy g.next_year

/-- A simple-offset relative keyword is present (the five keywords resolved
by a fixed `timedelta`, lines 120–129 of the source). -/
def anySimpleRelative (g : GroupDict) : Bool :=
  truthy g.today || truthy g.yesterday || truthy g.tomorrow ||
    truthy g.last_week || truthy g.next_week

/-- Python `x or d` for an optional integer: `d` when `x` is `None` or `0`. -/
def pyOrInt (x : Option Int) (d : Int) : Int :=
  match x with
  | some n => if n == 0 then d else n
  | none => d

/-- The per-match outcome of the component branch of `find_dates` (lines
92–103) once the three fields are resolved: construct the datetime and yield
it, or let the constructor's `ValueError` escape. -/
def outcomeOf (m : RawMatch) (yr : Int) (mo dy : Nat) : Except String (Option Date) :=
  match mkDatetime yr mo dy with
  | .ok dt => .ok (some ⟨dt, m.matched, (m.start, m.stop)⟩)
  | .error e => .error e

/-- A clock whose every sample returns the same instant. -/
def constClock (t : PyDateTime) : Nat → PyDateTime :=
  fun _ => t

/-- Raw match of the text `feb 30 2024` (month name, in-range day, year):
the captured components resolve to the calendrically invalid Feb 30. -/
def mFeb30 : RawMatch :=
  ⟨{ month_as_text := some "feb", day := some "30", year := some "2024" }, "feb 30 2024", 0, 11⟩

/-- Raw match of the text `march 23` (month name and day, no year), whose
resolution must sample the clock for the default year. -/
def mMarch23 : RawMatch :=
  ⟨{ month_as_text := some "march", day := some "23" }, "march 23", 0, 8⟩

/-- A clock reading 2024-03-15 on the first sample and 2025-01-01 afterwards. -/
def clockA : Nat → PyDateTime :=
  fun j => if j = 0 then ⟨2024, 3, 15⟩ else ⟨2025, 1, 1⟩

/-- A clock reading 2024-03-15 on the first sample and 2026-01-01 afterwards. -/
def clockB : Nat → PyDateTime :=
  fun j => if j = 0 then ⟨2024, 3, 15⟩ else ⟨2026, 1, 1⟩

/-- The digit-accumulating fold of `digitsToNat` is linear in its accumulator. -/
theorem digitsFold_shift (l : List Char) : ∀ init : Nat,
    l.foldl (fun acc c => acc * 10 + (c.toNat - 48)) init =
      init * 10 ^ l.length + l.foldl (fun acc c => acc * 10 + (c.toNat - 48)) 0 := by
  induction l with
  | nil => intro init; simp
  | cons c cs ih =>
    intro init
    simp only [List.foldl_cons, List.length_cons]
    rw [ih (init * 10 + (c.toNat - 48)), ih (0 * 10 + (c.toNat - 48))]
    ring

/-- Parsing with the century constant prefixed adds 2000 for 2-char strings. -/
theorem digitsToNat_century (s : String) (h2 : s.length = 2) :
    digitsToNat (CENTURY ++ s) = 2000 + digitsToNat s := by
  have hdata : (CENTURY ++ s).data = '2' :: '0' :: s.data := by
    rw [String.data_append]; rfl
  have hlen : s.data.length = 2 := h2
  simp only [digitsToNat, hdata, List.foldl_cons]
  rw [digitsFold_shift s.data]
  norm_num [hlen]
  decide

/-- When no relative-keyword group participated in the match,
`_handle_relative_dates` returns `None`. -/
theorem handleRelativeDates_eq_none (g : GroupDict) (now : PyDateTime)
    (h : anyRelative g = false) : handleRelativeDates g now = none := by
  simp only [anyRelative, Bool.or_eq_false_iff] at h
  obtain ⟨⟨⟨⟨⟨⟨⟨⟨h1, h2⟩, h3⟩, h4⟩, h5⟩, h6⟩, h7⟩, h8⟩, h9⟩ := h
  simp [handleRelativeDates, h1, h2, h3, h4, h5, h6, h7, h8, h9]

/-- When one of the five simple-offset keywords participated,
`_handle_relative_dates` returns a datetime (never `None`). -/
theorem handleRelativeDates_isSome_of_simple (g : GroupDict) (now : PyDateTime)
    (h : anySimpleRelative g = true) : (handleRelativeDates g now).isSome = true := by
  simp only [anySimpleRelative, Bool.or_eq_true] at h
  unfold handleRelativeDates
  rcases h with ((((h | h) | h) | h) | h) <;> simp [h] <;>
    by_cases h1 : truthy g.today = true <;>
    by_cases h2 : truthy g.yesterday = true <;>
    by_cases h3 : truthy g.tomorrow = true <;>
    by_cases h4 : truthy g.last_week = true <;>
    simp_all

/-- C1: the claim says a raw match resolving to a calendrically invalid
year/month/day (here Feb 30) is silently dropped; in the source the
`datetime` constructor call at line 95 is not wrapped in any handler, so the
`ValueError` propagates out of the generator: the scan aborts with an error
and no further match is processed. -/
theorem feb30_raises_valueerror :
    findDates (constClock ⟨2024, 3, 15⟩) [mFeb30] = ([], some "ValueError") := by
  rfl

/-- C5: a truthy 2-digit year group resolves to 2000 + its numeric value
(century constant 20 prefixed); any other truthy year group resolves to its
numeric value unchanged. -/
theorem two_digit_year_expansion (g : GroupDict) (s : String)
    (hy : g.year = some s) (hne : s.isEmpty = false)
    (_hdig : s.data.all Char.isDigit = true) :
    yearToNumber g =
      some (if s.length = 2 then ((2000 + digitsToNat s : Nat) : Int)
            else ((digitsToNat s : Nat) : Int)) := by
  unfold yearToNumber
  rw [hy]
  simp only [hne, Bool.not_false, if_true]
  by_cases h2 : s.length = 2
  · simp [h2, digitsToNat_century s h2]
  · simp [h2]

/-- C5 witness: the captured year 24 resolves to 2024. -/
theorem two_digit_year_expansion_witness :
    yearToNumber { year := some "24" } =
      some (if ("24" : String).length = 2 then ((2000 + digitsToNat "24" : Nat) : Int)
            else ((digitsToNat "24" : Nat) : Int)) :=
  two_digit_year_expansion { year := some "24" } "24" rfl (by decide) (by decide)

end Datefind

namespace Datefind

/-- C7: with no simple-offset keyword present, a `last month`/`next month`
(`last year`/`next year`) keyword resolves to the reference instant with its
month (year) field decremented/incremented by one, keeping the same
day-of-month; if the replaced combination is calendrically invalid the match
yields `None` (the caught `ValueError`) rather than a clamped date. -/
theorem relative_month_year_adjustment (g : GroupDict) (now : PyDateTime)
    (hsimple : anySimpleRelative g = false) :
    (truthy g.last_month = true →
      handleRelativeDates g now =
        if validYMD now.year (now.month - 1) now.day = true then
          some { now with month := now.month - 1 } else none) ∧
    (truthy g.last_month = false → truthy g.next_month = true →
      handleRelativeDates g now =
        if validYMD now.year (now.month + 1) now.day = true then
          some { now with month := now.month + 1 } else none) ∧
    (truthy g.last_month = false → truthy g.next_month = false →
     truthy g.last_year = true →
      handleRelativeDates g now =
        if validYMD (now.year - 1) now.month now.day = true then
          some { now with year := now.year - 1 } else none) ∧
    (truthy g.last_month = false → truthy g.next_month = false →
     truthy g.last_year = false → truthy g.next_year = true →
      handleRelativeDates g now =
        if validYMD (now.year + 1) now.month now.day = true then
          some { now with year := now.year + 1 } else none) := by
  simp only [anySimpleRelative, Bool.or_eq_false_iff] at hsimple
  obtain ⟨⟨⟨⟨h1, h2⟩, h3⟩, h4⟩, h5⟩ := hsimple
  have htn : ((now.month : Int) - 1).toNat = now.month - 1 := by omega
  have htp : ((now.month : Int) + 1).toNat = now.month + 1 := by omega
  refine ⟨fun hlm => ?_, fun hlm hnm => ?_, fun hlm hnm hly => ?_,
    fun hlm hnm hly hny => ?_⟩ <;>
    simp only [handleRelativeDates, h1, h2, h3, h4, h5, hlm, if_false, if_true,
      Bool.false_eq_true, tryReplaceMonth, tryReplaceYear, htn, htp]
  · by_cases hz : now.month = 0
    · have hv : validYMD now.year 0 now.day = false := by simp [validYMD]
      simp [hz, hv]
    · have : (0 ≤ (now.month : Int) - 1) = True := by
        simp; omega
      simp [this]
  · simp only [hnm, if_true]
    have : (0 ≤ (now.month : Int) + 1) = True := by simp; omega
    simp [this]
  · simp [hnm, hly]
  · simp [hnm, hly, hny]

/-- C7 witness: `last month` at reference 2024-03-31 yields no result
(February has no 31st), and at reference 2024-04-15 yields 2024-03-15. -/
theorem relative_month_year_adjustment_witness :
    handleRelativeDates { last_month := some "last month" } ⟨2024, 3, 31⟩ =
      (if validYMD 2024 (3 - 1) 31 = true then
        some ⟨2024, 3 - 1, 31⟩ else none) :=
  ((relative_month_year_adjustment { last_month := some "last month" }
    ⟨2024, 3, 31⟩ (by decide)).1 (by decide))

/-- C8: each simple relative keyword resolves to the reference instant plus
its fixed offset (today: `now`; yesterday/tomorrow: ∓/± 1 day; last/next
week: ∓/± 7 days), and whenever a relative-keyword slot participated in the
match — any simple keyword, or any relative keyword under the pattern
contract that relative alternatives populate no component group —
`find_dates` skips component-field resolution entirely: the match's outcome
is exactly the relative handler's result and no further clock sample is
taken. -/
theorem simple_relative_offsets (clock : Nat → PyDateTime) (k : Nat)
    (m : RawMatch) (now : PyDateTime) :
    (truthy m.groups.today = true → handleRelativeDates m.groups now = some now) ∧
    (truthy m.groups.today = false → truthy m.groups.yesterday = true →
      handleRelativeDates m.groups now = some (addDays now (-1))) ∧
    (truthy m.groups.today = false → truthy m.groups.yesterday = false →
     truthy m.groups.tomorrow = true →
      handleRelativeDates m.groups now = some (addDays now 1)) ∧
    (truthy m.groups.today = false → truthy m.groups.yesterday = false →
     truthy m.groups.tomorrow = false → truthy m.groups.last_week = true →
      handleRelativeDates m.groups now = some (addDays now (-7))) ∧
    (truthy m.groups.today = false → truthy m.groups.yesterday = false →
     truthy m.groups.tomorrow = false → truthy m.groups.last_week = false →
     truthy m.groups.next_week = true →
      handleRelativeDates m.groups now = some (addDays now 7)) ∧
    (anySimpleRelative m.groups = true →
      processMatch clock k m =
        (.ok ((handleRelativeDates m.groups (clock k)).map
          (fun dt => ⟨dt, m.matched, (m.start, m.stop)⟩)), k + 1)) ∧
    (anyRelative m.groups = true → hasDateComponent m.groups = false →
      processMatch clock k m =
        (.ok ((handleRelativeDates m.groups (clock k)).map
          (fun dt => ⟨dt, m.matched, (m.start, m.stop)⟩)), k + 1)) := by
  refine ⟨fun h1 => ?_, fun h1 h2 => ?_, fun h1 h2 h3 => ?_,
    fun h1 h2 h3 h4 => ?_, fun h1 h2 h3 h4 h5 => ?_,
    fun hs => ?_, fun _ hc => ?_⟩
  · simp [handleRelativeDates, h1]
  · simp [handleRelativeDates, h1, h2]
  · simp [handleRelativeDates, h1, h2, h3]
  · simp [handleRelativeDates, h1, h2, h3, h4]
  · simp [handleRelativeDates, h1, h2, h3, h4, h5]
  · have hns := handleRelativeDates_isSome_of_simple m.groups (clock k) hs
    unfold processMatch
    have : (handleRelativeDates m.groups (clock k)).isNone = false := by
      cases hh : handleRelativeDates m.groups (clock k) <;> simp_all
    simp [this]
  · unfold processMatch
    simp [hc]

/-- C8 witness: a `yesterday` match at reference 2024-03-01 resolves to
2024-02-29, skipping component resolution with a single clock sample. -/
theorem simple_relative_offsets_witness :
    handleRelativeDates { yesterday := some "yesterday" } ⟨2024, 3, 1⟩ =
      some (addDays ⟨2024, 3, 1⟩ (-1)) :=
  ((simple_relative_offsets (constClock ⟨2024, 3, 1⟩) 0
      ⟨{ yesterday := some "yesterday" }, "yesterday", 0, 9⟩
      ⟨2024, 3, 1⟩).2.1 (by decide) (by decide))

end Datefind

namespace Datefind

/-- C9: a truthy textual-month capture is resolved by testing it against the
twelve month-name patterns in calendar order, the first matching pattern
winning, and this resolution is independent of any numeric `month` capture
in the same match. -/
theorem textual_month_priority (g : GroupDict) (s : String)
    (hs : g.month_as_text = some s) (hne : s.isEmpty = false)
    (hmatch : (monthPatterns.find? (fun p => reSearchMonth p.1 s)).isSome = true) :
    monthToNumber g = (monthPatterns.find? (fun p => reSearchMonth p.1 s)).map Prod.snd ∧
    (∃ pre pr post, monthPatterns = pre ++ pr :: post ∧
        reSearchMonth pr.1 s = true ∧ (∀ q ∈ pre, reSearchMonth q.1 s = false) ∧
        monthToNumber g = some pr.2) ∧
    (∀ mo : Option String, monthToNumber { g with month := mo } = monthToNumber g) := by
  obtain ⟨pr, hpr⟩ := Option.isSome_iff_exists.mp hmatch
  have h1 : monthToNumber g = some pr.2 := by
    unfold monthToNumber
    rw [hs]
    simp [hne, hpr]
  refine ⟨by rw [h1, hpr]; rfl, ?_, ?_⟩
  · obtain ⟨hp, pre, post, heq, hall⟩ := List.find?_eq_some.mp hpr
    exact ⟨pre, pr, post, heq, hp, fun q hq => by simpa using hall q hq, h1⟩
  · intro mo
    rw [h1]
    unfold monthToNumber
    have : ({ g with month := mo } : GroupDict).month_as_text = some s := hs
    rw [this]
    simp [hne, hpr]

/-- C9 witness: the textual capture DEC resolves to 12 even with a numeric
month capture 5 present. -/
theorem textual_month_priority_witness :
    monthToNumber { month_as_text := some "DEC", month := some "5" } =
      (monthPatterns.find? (fun p => reSearchMonth p.1 "DEC")).map Prod.snd :=
  (textual_month_priority { month_as_text := some "DEC", month := some "5" }
    "DEC" rfl (by decide) (by decide)).1

/-- Under a constant clock, a non-relative match with a date component and a
non-raising day resolution reaches the component branch with the three
fields resolved exactly as lines 92–94 compute them: Python `or`-defaulting
of day to 1, month to the sampled current month, year to the sampled
current year. -/
theorem processMatch_const_clock (now : PyDateTime) (clock : Nat → PyDateTime)
    (hclk : ∀ j, clock j = now) (k : Nat) (m : RawMatch)
    (hrel : anyRelative m.groups = false)
    (hcomp : hasDateComponent m.groups = true)
    (dOpt : Option Nat) (hday : dayToNumber m.groups = .ok dOpt) :
    (processMatch clock k m).1 =
      outcomeOf m (pyOrInt (yearToNumber m.groups) now.year)
        (pyOrNat (monthToNumber m.groups) now.month) (pyOrNat dOpt 1) := by
  unfold processMatch
  simp only [hclk]
  rw [handleRelativeDates_eq_none m.groups now hrel]
  simp only [Option.isNone_none, hcomp, Bool.and_self, if_true, hday]
  generalize pyOrNat dOpt 1 = dy
  unfold outcomeOf
  rcases hmn : monthToNumber m.groups with _ | n <;>
    rcases hyn : yearToNumber m.groups with _ | y <;>
    simp only [pyOrNat, pyOrInt]
  · cases hmk : mkDatetime now.year now.month dy <;> simp [hmk]
  · by_cases hz : y = 0
    · subst hz
      simp only [show ((0 : Int) == 0) = true from rfl, if_true]
      cases hmk : mkDatetime now.year now.month dy <;> simp [hmk]
    · have hb : (y == 0) = false := by simpa using hz
      simp only [hb, Bool.false_eq_true, if_false]
      cases hmk : mkDatetime y now.month dy <;> simp [hmk]
  · by_cases hz : n = 0
    · subst hz
      simp only [show ((0 : Nat) == 0) = true from rfl, if_true]
      cases hmk : mkDatetime now.year now.month dy <;> simp [hmk]
    · have hb : (n == 0) = false := by simpa using hz
      simp only [hb, Bool.false_eq_true, if_false]
      cases hmk : mkDatetime now.year n dy <;> simp [hmk]
  · by_cases hz : n = 0 <;> by_cases hzy : y = 0
    · subst hz; subst hzy
      simp only [show ((0 : Nat) == 0) = true from rfl,
        show ((0 : Int) == 0) = true from rfl, if_true]
      cases hmk : mkDatetime now.year now.month dy <;> simp [hmk]
    · have hby : (y == 0) = false := by simpa using hzy
      subst hz
      simp only [show ((0 : Nat) == 0) = true from rfl, if_true, hby,
        Bool.false_eq_true, if_false]
      cases hmk : mkDatetime y now.month dy <;> simp [hmk]
    · have hbn : (n == 0) = false := by simpa using hz
      subst hzy
      simp only [show ((0 : Int) == 0) = true from rfl, if_true, hbn,
        Bool.false_eq_true, if_false]
      cases hmk : mkDatetime now.year n dy <;> simp [hmk]
    · have hbn : (n == 0) = false := by simpa using hz
      have hby : (y == 0) = false := by simpa using hzy
      simp only [hbn, hby, Bool.false_eq_true, if_false]
      cases hmk : mkDatetime y n dy <;> simp [hmk]

end Datefind

namespace Datefind

/-- C6: for a non-relative match with a date component (and a day resolution
that does not raise), the component branch resolves with Python
`or`-defaulting: absent day groups give day 1, absent month groups give the
current month of the reference instant, an absent year gives its current
year (stated under a constant clock, i.e. a single reference instant). -/
theorem missing_field_defaults (now : PyDateTime) (clock : Nat → PyDateTime)
    (hclk : ∀ j, clock j = now) (k : Nat) (m : RawMatch)
    (hrel : anyRelative m.groups = false)
    (hcomp : hasDateComponent m.groups = true)
    (dOpt : Option Nat) (hday : dayToNumber m.groups = .ok dOpt) :
    ∃ yr mo dy, (processMatch clock k m).1 = outcomeOf m yr mo dy ∧
      (m.groups.day_as_text = none → m.groups.day = none → dy = 1) ∧
      (m.groups.month_as_text = none → m.groups.month = none → mo = now.month) ∧
      (m.groups.year = none → yr = now.year) := by
  refine ⟨_, _, _,
    processMatch_const_clock now clock hclk k m hrel hcomp dOpt hday, ?_, ?_, ?_⟩
  · intro hdt hd
    have hnone : dayToNumber m.groups = .ok none := by
      unfold dayToNumber dayNumeric
      rw [hdt, hd]
    rw [hnone] at hday
    cases hday
    rfl
  · intro hmt hm
    have hnone : monthToNumber m.groups = none := by
      unfold monthToNumber monthNumeric
      rw [hmt, hm]
    rw [hnone]
    rfl
  · intro hy
    have hnone : yearToNumber m.groups = none := by
      unfold yearToNumber
      rw [hy]
    rw [hnone]
    rfl

/-- C6 witness: a year-only match resolves day 1 and the current month. -/
theorem missing_field_defaults_witness :
    ∃ yr mo dy,
      (processMatch (constClock ⟨2024, 5, 9⟩) 0
        ⟨{ year := some "2025" }, "2025", 0, 4⟩).1 = outcomeOf
          ⟨{ year := some "2025" }, "2025", 0, 4⟩ yr mo dy ∧
      (({ year := some "2025" } : GroupDict).day_as_text = none →
        ({ year := some "2025" } : GroupDict).day = none → dy = 1) ∧
      (({ year := some "2025" } : GroupDict).month_as_text = none →
        ({ year := some "2025" } : GroupDict).month = none →
          mo = (⟨2024, 5, 9⟩ : PyDateTime).month) ∧
      (({ year := some "2025" } : GroupDict).year = none →
        yr = (⟨2024, 5, 9⟩ : PyDateTime).year) :=
  missing_field_defaults ⟨2024, 5, 9⟩ (constClock ⟨2024, 5, 9⟩) (fun _ => rfl) 0
    ⟨{ year := some "2025" }, "2025", 0, 4⟩ (by decide) (by decide) none rfl

/-- C10: zero-valued captured components behave exactly like absent ones in
field resolution (Python `or` treats 0 as falsy): a numeric day capture
parsing to 0 resolves to day 1, a numeric month capture parsing to 0
resolves to the current month, and a year capture parsing to 0 resolves to
the current year (stated under a constant clock). -/
theorem zero_component_defaults (now : PyDateTime) (clock : Nat → PyDateTime)
    (hclk : ∀ j, clock j = now) (k : Nat) (m : RawMatch)
    (hrel : anyRelative m.groups = false)
    (hcomp : hasDateComponent m.groups = true)
    (dOpt : Option Nat) (hday : dayToNumber m.groups = .ok dOpt) :
    ∃ yr mo dy, (processMatch clock k m).1 = outcomeOf m yr mo dy ∧
      (m.groups.day_as_text = none → m.groups.day = some "0" → dy = 1) ∧
      (m.groups.month_as_text = none → m.groups.month = some "0" → mo = now.month) ∧
      (m.groups.year = some "0" → yr = now.year) := by
  refine ⟨_, _, _,
    processMatch_const_clock now clock hclk k m hrel hcomp dOpt hday, ?_, ?_, ?_⟩
  · intro hdt hd
    have hzero : dayToNumber m.groups = .ok (some 0) := by
      unfold dayToNumber dayNumeric
      rw [hdt, hd]
      rfl
    rw [hzero] at hday
    cases hday
    rfl
  · intro hmt hm
    have hzero : monthToNumber m.groups = some 0 := by
      unfold monthToNumber monthNumeric
      rw [hmt, hm]
      rfl
    rw [hzero]
    rfl
  · intro hy
    have hzero : yearToNumber m.groups = some 0 := by
      unfold yearToNumber
      rw [hy]
      rfl
    rw [hzero]
    rfl

/-- C10 witness: captured day 0, month 0 and year 0 resolve to day 1 and the
reference instant's month and year. -/
theorem zero_component_defaults_witness :
    ∃ yr mo dy,
      (processMatch (constClock ⟨2024, 5, 9⟩) 0
        ⟨{ year := some "0", month := some "0", day := some "0" }, "0 0 0", 0, 5⟩).1 =
        outcomeOf
          ⟨{ year := some "0", month := some "0", day := some "0" }, "0 0 0", 0, 5⟩
          yr mo dy ∧
      (({ year := some "0", month := some "0", day := some "0" } : GroupDict).day_as_text = none →
        ({ year := some "0", month := some "0", day := some "0" } : GroupDict).day = some "0" →
          dy = 1) ∧
      (({ year := some "0", month := some "0", day := some "0" } : GroupDict).month_as_text = none →
        ({ year := some "0", month := some "0", day := some "0" } : GroupDict).month = some "0" →
          mo = (⟨2024, 5, 9⟩ : PyDateTime).month) ∧
      (({ year := some "0", month := some "0", day := some "0" } : GroupDict).year = some "0" →
        yr = (⟨2024, 5, 9⟩ : PyDateTime).year) :=
  zero_component_defaults ⟨2024, 5, 9⟩ (constClock ⟨2024, 5, 9⟩) (fun _ => rfl) 0
    ⟨{ year := some "0", month := some "0", day := some "0" }, "0 0 0", 0, 5⟩
    (by decide) (by decide) (some 0) rfl

end Datefind

namespace Datefind

/-- Every `Date` a single match yields carries that match's `group()` text
and `span()` boundaries unchanged. -/
theorem processMatch_some_shape (clock : Nat → PyDateTime) (k : Nat)
    (m : RawMatch) (d : Date)
    (h : (processMatch clock k m).1 = .ok (some d)) :
    d.matched = m.matched ∧ d.span = (m.start, m.stop) := by
  unfold processMatch at h
  by_cases hc : ((handleRelativeDates m.groups (clock k)).isNone &&
      hasDateComponent m.groups) = true
  · rw [if_pos hc] at h
    rcases hd : dayToNumber m.groups with e | dOpt <;> simp only [hd] at h
    · simp at h
    · rcases hmk : mkDatetime _ _ _ with e | dt <;> rw [hmk] at h
      · simp at h
      · simp at h
        rw [← h]
        exact ⟨rfl, rfl⟩
  · rw [if_neg hc] at h
    simp only [Option.map_eq_some'] at h
    simp at h
    obtain ⟨a, _, ha⟩ := h
    rw [← ha]
    exact ⟨rfl, rfl⟩

/-- Every emitted `Date` originates from some raw match in the scanned list,
keeping its text and span. -/
theorem mem_findDatesAux (clock : Nat → PyDateTime) :
    ∀ (ms : List RawMatch) (k : Nat) (d : Date),
      d ∈ (findDatesAux clock k ms).1 →
      ∃ m ∈ ms, d.matched = m.matched ∧ d.span = (m.start, m.stop) := by
  intro ms
  induction ms with
  | nil =>
    intro k d h
    simp [findDatesAux] at h
  | cons m rest ih =>
    intro k d h
    unfold findDatesAux at h
    rcases hp : processMatch clock k m with ⟨r, k2⟩
    rw [hp] at h
    rcases r with e | od
    · simp at h
    · rcases od with _ | d0
      · obtain ⟨m', hm', he⟩ := ih k2 d h
        exact ⟨m', List.mem_cons_of_mem _ hm', he⟩
      · simp only [List.mem_cons] at h
        rcases h with rfl | h
        · have hsh := processMatch_some_shape clock k m d (by rw [hp])
          exact ⟨m, List.mem_cons_self m rest, hsh⟩
        · obtain ⟨m', hm', he⟩ := ih k2 d h
          exact ⟨m', List.mem_cons_of_mem _ hm', he⟩

/-- C3: whenever the raw matches satisfy the regex library's slice guarantee
(`group()` equals the subject slice at `span()`), every emitted result's
matched-text field equals the input text's slice at its span. -/
theorem span_slice_correct (text : String) (clock : Nat → PyDateTime)
    (ms : List RawMatch) (hslice : SliceAgrees text ms) :
    ∀ d ∈ (findDates clock ms).1,
      strSlice text d.span.1 d.span.2 = d.matched := by
  intro d hd
  obtain ⟨m, hm, hmat, hspan⟩ := mem_findDatesAux clock ms 0 d hd
  rw [hmat, hspan]
  exact hslice m hm

/-- The `Date` fixture emitted for `mMarch23` under the constant 2024-05-09
clock. -/
def dateMarch23 : Date := ⟨⟨2024, 3, 23⟩, "march 23", (0, 8)⟩

/-- C3 witness: the result for the text `march 23` carries the span whose
slice is the matched text. -/
theorem span_slice_correct_witness :
    strSlice "march 23" dateMarch23.span.1 dateMarch23.span.2 = dateMarch23.matched :=
  span_slice_correct "march 23" (constClock ⟨2024, 5, 9⟩) [mMarch23]
    (by intro m hm; simp at hm; subst hm; rfl) dateMarch23 (by decide)

/-- C4: whenever the raw matches are strictly ordered and non-overlapping
(the regex library's `finditer` guarantee), the emitted results appear in
strictly increasing span-start order and no two of their spans overlap. -/
theorem results_ordered_nonoverlapping (clock : Nat → PyDateTime)
    (ms : List RawMatch) (hord : OrderedMatches ms) :
    List.Pairwise (fun d e : Date => d.span.1 < e.span.1 ∧ d.span.2 ≤ e.span.1)
      (findDates clock ms).1 := by
  unfold findDates
  suffices h : ∀ k, List.Pairwise
      (fun d e : Date => d.span.1 < e.span.1 ∧ d.span.2 ≤ e.span.1)
      (findDatesAux clock k ms).1 from h 0
  unfold OrderedMatches at hord
  induction ms with
  | nil =>
    intro k
    simp [findDatesAux]
  | cons m rest ih =>
    intro k
    obtain ⟨hhead, htail⟩ := List.pairwise_cons.mp hord
    unfold findDatesAux
    rcases hp : processMatch clock k m with ⟨r, k2⟩
    rcases r with e | od
    · simp
    · rcases od with _ | d0
      · exact ih htail k2
      · dsimp only
        refine List.Pairwise.cons ?_ (ih htail k2)
        intro e he
        obtain ⟨m', hm', _, hes⟩ := mem_findDatesAux clock rest k2 e he
        have hsh := processMatch_some_shape clock k m d0 (by rw [hp])
        have hmm := hhead m' hm'
        rw [hsh.2, hes]
        exact ⟨hmm.1, hmm.2⟩

end Datefind

namespace Datefind

/-- A raw match of the keyword `today` located at offsets 20–25. -/
def mToday25 : RawMatch := ⟨{ today := some "today" }, "today", 20, 25⟩

/-- C4 witness: two ordered raw matches yield results in strictly increasing
non-overlapping span order. -/
theorem results_ordered_nonoverlapping_witness :
    List.Pairwise (fun d e : Date => d.span.1 < e.span.1 ∧ d.span.2 ≤ e.span.1)
      (findDates (constClock ⟨2024, 5, 9⟩) [mMarch23, mToday25]).1 :=
  results_ordered_nonoverlapping (constClock ⟨2024, 5, 9⟩) [mMarch23, mToday25]
    (by
      show List.Pairwise (fun a b => a.start < b.start ∧ a.stop ≤ b.start)
        [mMarch23, mToday25]
      decide)

/-- Processing one match advances the sample counter by at least one (the
unconditional sample in `_handle_relative_dates`) and at most three (plus
the lazy month-default and year-default samples). -/
theorem processMatch_counter_bounds (clock : Nat → PyDateTime) (k : Nat)
    (m : RawMatch) :
    k + 1 ≤ (processMatch clock k m).2 ∧ (processMatch clock k m).2 ≤ k + 3 := by
  unfold processMatch
  dsimp only
  constructor
  · split
    · split
      · dsimp only; omega
      · split <;> (dsimp only; repeat' split) <;> omega
    · dsimp only; omega
  · split
    · split
      · dsimp only; omega
      · split <;> (dsimp only; repeat' split) <;> omega
    · dsimp only; omega

/-- The outcome and counter of one match depend only on the clock readings
at the at-most-three indices the match can sample. -/
theorem processMatch_clock_congr (A B : Nat → PyDateTime) (k : Nat)
    (m : RawMatch) (h : ∀ j, j < k + 3 → A j = B j) :
    processMatch A k m = processMatch B k m := by
  have e0 : A k = B k := h k (by omega)
  have e1 : A (k + 1) = B (k + 1) := h (k + 1) (by omega)
  have e2 : A (k + 2) = B (k + 2) := h (k + 2) (by omega)
  unfold processMatch
  rw [e0]
  rcases hmn : monthToNumber m.groups with _ | n
  · simp [hmn, e1, e2]
  · cases hz : (n == 0) <;> simp [hmn, hz, e1, e2]

/-- The whole scan depends only on the clock readings at the sample indices
it can reach: three per remaining match. -/
theorem findDatesAux_clock_congr (A B : Nat → PyDateTime) :
    ∀ (ms : List RawMatch) (k : Nat),
      (∀ j, j < k + 3 * ms.length → A j = B j) →
      findDatesAux A k ms = findDatesAux B k ms := by
  intro ms
  induction ms with
  | nil => intro k _; rfl
  | cons m rest ih =>
    intro k h
    have hpm : processMatch A k m = processMatch B k m :=
      processMatch_clock_congr A B k m
        (fun j hj => h j (by simp only [List.length_cons]; omega))
    unfold findDatesAux
    rw [hpm]
    rcases hp : processMatch B k m with ⟨r, k2⟩
    have hk2 : k2 ≤ k + 3 := by
      have hb := (processMatch_counter_bounds B k m).2
      rw [hp] at hb
      exact hb
    have hrest : ∀ j, j < k2 + 3 * rest.length → A j = B j := by
      intro j hj
      refine h j ?_
      simp only [List.length_cons]
      omega
    rcases r with e | od
    · rfl
    · rcases od with _ | d0
      · exact ih k2 hrest
      · dsimp only
        rw [ih k2 hrest]

/-- C2 amended: the output sequence is determined by the clock readings the
scan actually samples — at most three per match — so two runs whose clock
readings agree on the first 3·n samples (n the number of raw matches)
produce identical output sequences. -/
theorem output_determined_by_sampled_clock (A B : Nat → PyDateTime)
    (ms : List RawMatch) (h : ∀ j, j < 3 * ms.length → A j = B j) :
    findDates A ms = findDates B ms :=
  findDatesAux_clock_congr A B ms 0 (fun j hj => h j (by omega))

/-- C2 amended witness: two clocks agreeing on the first three samples give
the same result for a one-match scan. -/
theorem output_determined_by_sampled_clock_witness :
    findDates clockA [mMarch23] =
      findDates (fun j => if j < 3 then clockA j else ⟨1999, 1, 1⟩) [mMarch23] :=
  output_determined_by_sampled_clock clockA
    (fun j => if j < 3 then clockA j else ⟨1999, 1, 1⟩) [mMarch23]
    (fun j hj => by simp at hj; simp [hj])

/-- C2 counterexample: the source re-samples `datetime.now` during the scan
(line 117 on every match, lines 93–94 per missing component), so two runs
whose clocks agree on the first sample but not on a later one can produce
different outputs: the claim that agreement on the single initial instant
forces identical output sequences is false. -/
theorem now_resampled_counterexample :
    clockA 0 = clockB 0 ∧
      findDates clockA [mMarch23] ≠ findDates clockB [mMarch23] := by
  constructor
  · rfl
  · decide
end Datefind
